import Mathlib

/-!
Verification of the k8s-monitor resource presentation pipeline: a shallow
embedding of the pure core of src/k8s-monitor.go (age formatting, row
projection, error classification, table line structure, refresh loop) with
theorems settling the specification claims about it.
-/

namespace K8sMonitor

/-- Shallow embedding of formatAge (src/k8s-monitor.go, lines 260 to 272) at
whole-second granularity. The Go code compares float64 hours, minutes and
seconds obtained from a nanosecond Duration; for whole-second inputs in the
int64 nanosecond range those float comparisons and truncations agree exactly
with the integer comparisons and divisions used here. Note the days bucket is
guarded by a strict comparison, duration.Hours() greater than 24, while the
later buckets use greater-or-equal. -/
def formatAge (d : Int) : String :=
  if 86400 < d then toString (d / 86400) ++ "d"
  else if 3600 ≤ d then toString (d / 3600) ++ "h"
  else if 60 ≤ d then toString (d / 60) ++ "m"
  else toString d ++ "s"

/-- One container status entry, as consumed by getReadyContainers and
getTotalRestarts: the Ready flag and the RestartCount (int32 in Go, embedded
as Int). -/
structure ContainerStatus where
  ready : Bool
  restartCount : Int
deriving DecidableEq

/-- A container of the pod spec; only its presence matters to the projector
(the code takes the length of the spec container list). -/
structure Container where
  name : String
deriving DecidableEq

/-- The pod spec fields the projector reads. -/
structure PodSpec where
  containers : List Container
deriving DecidableEq

/-- The pod status fields the projector reads. -/
structure PodStatus where
  phase : String
  containerStatuses : List ContainerStatus
deriving DecidableEq

/-- A pod item. creationTimestamp is seconds since some epoch. -/
structure Pod where
  name : String
  creationTimestamp : Int
  spec : PodSpec
  status : PodStatus
deriving DecidableEq

/-- Embedding of getReadyContainers (lines 242 to 250): a fold over the
status list counting entries whose Ready flag is set. -/
def getReadyContainers (statuses : List ContainerStatus) : Nat :=
  statuses.foldl (fun acc s => if s.ready then acc + 1 else acc) 0

/-- Embedding of getTotalRestarts (lines 252 to 258): a fold over the status
list summing restart counts. -/
def getTotalRestarts (statuses : List ContainerStatus) : Int :=
  statuses.foldl (fun acc s => acc + s.restartCount) 0

/-- Go fmt left-justified fixed-width field: pad with spaces on the right up
to the width, never truncate. -/
def padRight (w : Nat) (s : String) : String :=
  s.pushn ' ' (w - s.length)

/-- The READY field of the pod row (line 90): ready count over the container
status list, slash, length of the spec container list. -/
def podReadyField (p : Pod) : String :=
  toString (getReadyContainers p.status.containerStatuses) ++ "/"
    ++ toString p.spec.containers.length

/-- One data line of the pod table (lines 94 to 99), fields separated by one
space, widths 40, 20, 15, 10, 10. -/
def podLine (now : Int) (p : Pod) : String :=
  padRight 40 p.name ++ " " ++ padRight 20 p.status.phase ++ " "
    ++ padRight 15 (podReadyField p) ++ " "
    ++ padRight 10 (toString (getTotalRestarts p.status.containerStatuses)) ++ " "
    ++ padRight 10 (formatAge (now - p.creationTimestamp))

/-- The pod table header line (line 88), same widths as the data lines. -/
def podHeaderLine : String :=
  padRight 40 "NAME" ++ " " ++ padRight 20 "STATUS" ++ " " ++ padRight 15 "READY"
    ++ " " ++ padRight 10 "RESTARTS" ++ " " ++ padRight 10 "AGE"

/-- The lines listPods prints on a successful fetch (lines 88 to 102): a
leading blank line, the header line, one line per pod, a blank line, then the
total count line. -/
def listPodsLines (now : Int) (pods : List Pod) : List String :=
  "" :: podHeaderLine :: (pods.map (podLine now) ++ ["", "Total pods: " ++ toString pods.length])

/-- One load balancer ingress entry of a service status. -/
structure ServiceLBIngress where
  ip : String
  hostname : String
deriving DecidableEq

/-- Embedding of the EXTERNAL-IP computation of listServices (lines 136 to
143): start from the none marker; when the ingress list is non-empty take the
first entry IP, and replace it by the hostname only when the IP is empty and
the hostname is not. -/
def externalIPOf (ingress : List ServiceLBIngress) : String :=
  match ingress with
  | [] => "<none>"
  | entry :: _ => if entry.ip = "" ∧ entry.hostname ≠ "" then entry.hostname else entry.ip

/-- The deployment spec fields the projector reads: Replicas is a pointer in
Go, embedded as an Option. -/
structure DeploymentSpec where
  replicas : Option Int
deriving DecidableEq

/-- The deployment status fields the projector reads. -/
structure DeploymentStatus where
  readyReplicas : Int
  updatedReplicas : Int
  availableReplicas : Int
deriving DecidableEq

/-- A deployment item. -/
structure Deployment where
  name : String
  creationTimestamp : Int
  spec : DeploymentSpec
  status : DeploymentStatus
deriving DecidableEq

/-- Embedding of the READY field of listDeployments (line 114). The Go code
dereferences the Spec.Replicas pointer; a nil pointer would panic, so the
embedding returns none exactly when that dereference would fail. -/
def deploymentReady (d : Deployment) : Option String :=
  d.spec.replicas.map (fun r => toString d.status.readyReplicas ++ "/" ++ toString r)

/-- One node condition: its Type and Status strings. -/
structure NodeCondition where
  condType : String
  status : String
deriving DecidableEq

/-- Embedding of the STATUS computation of listNodes (lines 207 to 216): scan
the conditions; at the first condition whose Type is Ready, answer NotReady
when its Status differs from True and Ready otherwise, and stop (the Go loop
breaks); with no Ready condition the initial value Ready stands. -/
def nodeStatus : List NodeCondition → String
  | [] => "Ready"
  | c :: rest =>
    if c.condType = "Ready" then (if c.status ≠ "True" then "NotReady" else "Ready")
    else nodeStatus rest

/-- Lookup in the node label map, embedded as an association list with the
first binding of a key winning (Go maps have unique keys). -/
def lookupLabel (labels : List (String × String)) (key : String) : Option String :=
  (labels.find? (fun p => p.fst = key)).map Prod.snd

/-- Embedding of the ROLES computation of listNodes (lines 218 to 225):
the kubernetes.io/role label value when present; else master when the
node-role.kubernetes.io/master label equals true; else control-plane when the
node-role.kubernetes.io/control-plane label equals true; else the none
marker. -/
def nodeRoles (labels : List (String × String)) : String :=
  match lookupLabel labels "kubernetes.io/role" with
  | some val => val
  | none =>
    if lookupLabel labels "node-role.kubernetes.io/master" = some "true" then "master"
    else if lookupLabel labels "node-role.kubernetes.io/control-plane" = some "true" then
      "control-plane"
    else "<none>"

/-- A fetch failure, as classified by handleError (lines 274 to 280): either
a structured API status error carrying a server message, or any other error
carrying a generic description. -/
inductive FetchError where
  | statusError (message : String)
  | genericError (description : String)
deriving DecidableEq

/-- Embedding of handleError: the displayed message is the server message of
a status error and the generic description otherwise. -/
def handleErrorMessage : FetchError → String
  | .statusError m => m
  | .genericError d => d

/-- The full line handleError prints. -/
def handleErrorLine (e : FetchError) : String :=
  "Error: " ++ handleErrorMessage e

/-- The outcome of one fetch: the item list on success, a classified error on
failure. Specialised to the pods resource kind; every list function has the
same shape. -/
inductive FetchResult where
  | success (items : List Pod)
  | failure (err : FetchError)
deriving DecidableEq

/-- The lines one call of listPods prints (lines 81 to 103): the table on
success, the single error line on failure (the function returns after
handleError, printing no table). -/
def listPodsOutput (now : Int) : FetchResult → List String
  | .success pods => listPodsLines now pods
  | .failure e => [handleErrorLine e]

/-- Observable events of one run of the main loop (lines 48 to 78). -/
inductive Event where
  | fetch
  | render
  | printError
  | clearScreen
  | banner
  | sleep (seconds : Nat)
deriving DecidableEq

/-- The events of one tick: a fetch, then a render on success or an error
print on failure. -/
def tickEvents : FetchResult → List Event
  | .success _ => [.fetch, .render]
  | .failure _ => [.fetch, .printError]

/-- Embedding of the main loop (lines 48 to 78) as the event trace it
produces, driven by the stream of fetch outcomes: each iteration runs one
tick; when watch is off the loop breaks right after the first tick; when
watch is on it clears the screen, prints the banner, sleeps for the interval
and repeats. -/
def run (watch : Bool) (interval : Nat) : List FetchResult → List Event
  | [] => []
  | r :: rest =>
    tickEvents r
      ++ (if watch then
            Event.clearScreen :: Event.banner :: Event.sleep interval :: run watch interval rest
          else [])

/-- A deployment item with spec replicas 3 and 2 ready replicas. -/
def exampleDeployment : Deployment :=
  ⟨"web", 0, ⟨some 3⟩, ⟨2, 3, 3⟩⟩

/-- A pod with two spec containers and statuses ready with 2 restarts and
not ready with 3 restarts. -/
def examplePod : Pod :=
  ⟨"p", 0, ⟨[⟨"c1"⟩, ⟨"c2"⟩]⟩, ⟨"Running", [⟨true, 2⟩, ⟨false, 3⟩]⟩⟩

/-- A pod whose status list is longer than its spec container list: no spec
containers, one ready container status. -/
def overflowPod : Pod :=
  ⟨"q", 0, ⟨[]⟩, ⟨"Running", [⟨true, 0⟩]⟩⟩

theorem getReadyContainers_go (statuses : List ContainerStatus) (n : Nat) :
    statuses.foldl (fun acc s => if s.ready then acc + 1 else acc) n
      = n + statuses.countP (fun s => s.ready) := by
  induction statuses generalizing n with
  | nil => simp
  | cons c rest ih =>
    by_cases h : c.ready
    · simp [List.countP_cons, h, ih]
      omega
    · simp [List.countP_cons, h, ih]

theorem getReadyContainers_eq_countP (statuses : List ContainerStatus) :
    getReadyContainers statuses = statuses.countP (fun s => s.ready) := by
  simpa using getReadyContainers_go statuses 0

theorem getTotalRestarts_go (statuses : List ContainerStatus) (n : Int) :
    statuses.foldl (fun acc s => acc + s.restartCount) n
      = n + (statuses.map (fun s => s.restartCount)).sum := by
  induction statuses generalizing n with
  | nil => simp
  | cons c rest ih => simp [ih, add_assoc]

theorem getTotalRestarts_eq_sum (statuses : List ContainerStatus) :
    getTotalRestarts statuses = (statuses.map (fun s => s.restartCount)).sum := by
  simpa using getTotalRestarts_go statuses 0

/-- Claim C1 counterexample: a difference of exactly 24 hours renders as 24h,
not as a day count, because the days bucket check in the code is strict. -/
theorem formatAge_exact_24h_cex :
    formatAge 86400 = "24h" ∧ formatAge 86400 ≠ "1d" := by
  constructor <;> decide

/-- Claim C1 (amended): for every non-negative difference d, formatAge picks
the bucket by truncating threshold checks in order, but the days bucket
requires d strictly greater than 24 hours (d of exactly 24 hours renders as
24h, not as a day count); d of 23h59m59s renders 23h, 90s renders 1m, 45s
renders 45s, 25h renders 1d. -/
theorem formatAge_buckets (d : Int) (h0 : 0 ≤ d) :
    (86400 < d → formatAge d = toString (d / 86400) ++ "d") ∧
    (3600 ≤ d → d ≤ 86400 → formatAge d = toString (d / 3600) ++ "h") ∧
    (60 ≤ d → d < 3600 → formatAge d = toString (d / 60) ++ "m") ∧
    (d < 60 → formatAge d = toString d ++ "s") ∧
    formatAge 86400 = "24h" ∧ formatAge 86399 = "23h" ∧
    formatAge 90 = "1m" ∧ formatAge 45 = "45s" ∧ formatAge 90000 = "1d" := by
  refine ⟨fun h => ?_, fun h1 h2 => ?_, fun h1 h2 => ?_, fun h => ?_,
    by decide, by decide, by decide, by decide, by decide⟩ <;>
  · unfold formatAge
    split_ifs <;> first | rfl | omega

/-- Claim C1 witness: the bucket theorem applied at 7200 seconds. -/
theorem formatAge_buckets_witness :
    formatAge 7200 = toString ((7200 : Int) / 3600) ++ "h" :=
  (formatAge_buckets 7200 (by decide)).2.1 (by decide) (by decide)

/-- Claim C2 counterexample: one ingress entry with empty IP and empty
hostname yields the empty string for EXTERNAL-IP, not the none marker. -/
theorem externalIP_both_empty_cex :
    externalIPOf [⟨"", ""⟩] = "" ∧ externalIPOf [⟨"", ""⟩] ≠ "<none>" := by
  constructor <;> decide

/-- Claim C2 (amended): EXTERNAL-IP is the first ingress entry IP when
non-empty, else that entry hostname when non-empty, else the empty string
(not the none marker); only an empty ingress list yields the none marker. -/
theorem externalIP_precedence :
    externalIPOf [] = "<none>" ∧
    (∀ e rest, e.ip ≠ "" → externalIPOf (e :: rest) = e.ip) ∧
    (∀ e rest, e.ip = "" → e.hostname ≠ "" → externalIPOf (e :: rest) = e.hostname) ∧
    (∀ e rest, e.ip = "" → e.hostname = "" → externalIPOf (e :: rest) = "") := by
  refine ⟨rfl, ?_, ?_, ?_⟩ <;> intro e rest
  · intro h
    simp [externalIPOf, h]
  · intro h1 h2
    simp [externalIPOf, h1, h2]
  · intro h1 h2
    simp [externalIPOf, h1, h2]

/-- Claim C2 witness: an entry with empty IP and hostname lb.example.com
yields the hostname. -/
theorem externalIP_precedence_witness :
    externalIPOf [⟨"", "lb.example.com"⟩]
      = (⟨"", "lb.example.com"⟩ : ServiceLBIngress).hostname :=
  externalIP_precedence.2.2.1 ⟨"", "lb.example.com"⟩ [] rfl (by decide)

/-- Claim C3: when the spec replica count is present, the deployment READY
field is readyReplicas slash specReplicas and the dereference cannot fail;
spec replicas 3 with 2 ready replicas yields 2/3. -/
theorem deploymentReady_spec (d : Deployment) (r : Int)
    (h : d.spec.replicas = some r) :
    deploymentReady d = some (toString d.status.readyReplicas ++ "/" ++ toString r) ∧
    (deploymentReady d).isSome = true ∧
    deploymentReady exampleDeployment = some "2/3" := by
  refine ⟨?_, ?_, by decide⟩ <;> simp [deploymentReady, h]

/-- Claim C3 witness: the theorem applied to the example deployment. -/
theorem deploymentReady_spec_witness :
    deploymentReady exampleDeployment
        = some (toString exampleDeployment.status.readyReplicas ++ "/" ++ toString (3 : Int)) ∧
    (deploymentReady exampleDeployment).isSome = true ∧
    deploymentReady exampleDeployment = some "2/3" :=
  deploymentReady_spec exampleDeployment 3 rfl

theorem nodeStatus_eq_find (cs : List NodeCondition) :
    nodeStatus cs
      = (match cs.find? (fun c => c.condType == "Ready") with
         | none => "Ready"
         | some c => if c.status ≠ "True" then "NotReady" else "Ready") := by
  induction cs with
  | nil => rfl
  | cons c rest ih =>
    by_cases h : c.condType = "Ready"
    · have hb : (c.condType == "Ready") = true := by simpa using h
      simp [nodeStatus, List.find?, h, hb]
    · have hb : (c.condType == "Ready") = false := by simpa using h
      simp [nodeStatus, List.find?, h, hb, ih]

/-- Claim C4 counterexample: with conditions Ready-True then Ready-False the
code reports Ready although a Ready condition with status different from True
is present, because the scan stops at the first Ready condition. -/
theorem nodeStatus_duplicate_ready_cex :
    nodeStatus [⟨"Ready", "True"⟩, ⟨"Ready", "False"⟩] = "Ready" ∧
    (⟨"Ready", "False"⟩ : NodeCondition) ∈
      [(⟨"Ready", "True"⟩ : NodeCondition), ⟨"Ready", "False"⟩] ∧
    ("False" : String) ≠ "True" := by
  refine ⟨by decide, ?_, by decide⟩
  simp

/-- Claim C4 (amended): the node STATUS field is decided by the first
condition of type Ready in list order, NotReady exactly when that first such
condition has status different from True; when no Ready condition exists at
all, STATUS is Ready. -/
theorem nodeStatus_first_ready (cs : List NodeCondition) :
    nodeStatus cs
      = (match cs.find? (fun c => c.condType == "Ready") with
         | none => "Ready"
         | some c => if c.status ≠ "True" then "NotReady" else "Ready") ∧
    ((∀ c ∈ cs, c.condType ≠ "Ready") → nodeStatus cs = "Ready") := by
  refine ⟨nodeStatus_eq_find cs, fun hall => ?_⟩
  rw [nodeStatus_eq_find cs]
  have hnone : cs.find? (fun c => c.condType == "Ready") = none := by
    rw [List.find?_eq_none]
    intro x hx
    simpa using hall x hx
  rw [hnone]

/-- Claim C4 witness: one condition of a type other than Ready leaves the
status at Ready. -/
theorem nodeStatus_first_ready_witness :
    nodeStatus [⟨"MemoryPressure", "False"⟩] = "Ready" :=
  (nodeStatus_first_ready [⟨"MemoryPressure", "False"⟩]).2 (by decide)

/-- Claim C5: the pod READY field is the count of ready container statuses
over the length of the spec container list, RESTARTS is the sum of the
restart counts; the example pod with two containers and statuses ready with
2 restarts and not ready with 3 restarts yields 1/2 and 5. -/
theorem podReady_restarts_spec (p : Pod) :
    podReadyField p
      = toString (p.status.containerStatuses.countP (fun s => s.ready)) ++ "/"
        ++ toString p.spec.containers.length ∧
    getTotalRestarts p.status.containerStatuses
      = (p.status.containerStatuses.map (fun s => s.restartCount)).sum ∧
    podReadyField examplePod = "1/2" ∧
    getTotalRestarts examplePod.status.containerStatuses = 5 := by
  refine ⟨?_, getTotalRestarts_eq_sum _, by decide, by decide⟩
  simp [podReadyField, getReadyContainers_eq_countP]

/-- Claim C6: node ROLES is decided first-match-wins: the kubernetes.io/role
label value when present, else master when the master label equals true, else
control-plane when the control-plane label equals true, else the none marker;
labels role=worker plus master=true yield worker. -/
theorem nodeRoles_priority :
    (∀ labels v, lookupLabel labels "kubernetes.io/role" = some v →
      nodeRoles labels = v) ∧
    (∀ labels, lookupLabel labels "kubernetes.io/role" = none →
      lookupLabel labels "node-role.kubernetes.io/master" = some "true" →
      nodeRoles labels = "master") ∧
    (∀ labels, lookupLabel labels "kubernetes.io/role" = none →
      lookupLabel labels "node-role.kubernetes.io/master" ≠ some "true" →
      lookupLabel labels "node-role.kubernetes.io/control-plane" = some "true" →
      nodeRoles labels = "control-plane") ∧
    (∀ labels, lookupLabel labels "kubernetes.io/role" = none →
      lookupLabel labels "node-role.kubernetes.io/master" ≠ some "true" →
      lookupLabel labels "node-role.kubernetes.io/control-plane" ≠ some "true" →
      nodeRoles labels = "<none>") ∧
    nodeRoles [("kubernetes.io/role", "worker"), ("node-role.kubernetes.io/master", "true")]
      = "worker" := by
  refine ⟨?_, ?_, ?_, ?_, by decide⟩
  · intro labels v h
    simp [nodeRoles, h]
  · intro labels h1 h2
    simp [nodeRoles, h1, h2]
  · intro labels h1 h2 h3
    simp [nodeRoles, h1, h2, h3]
  · intro labels h1 h2 h3
    simp [nodeRoles, h1, h2, h3]

/-- Claim C6 witness: a lone explicit role label is used as the roles
value. -/
theorem nodeRoles_priority_witness :
    nodeRoles [("kubernetes.io/role", "infra")] = "infra" :=
  nodeRoles_priority.1 [("kubernetes.io/role", "infra")] "infra" (by decide)

/-- Claim C7: the classifier yields the server message for a structured API
status failure and the generic description otherwise; a fetch failure is
recovered locally: the tick prints only the single error line and no table,
and the loop continues in watch mode or finishes normally in single-shot
mode. -/
theorem handleError_spec :
    (∀ m, handleErrorMessage (FetchError.statusError m) = m) ∧
    (∀ s, handleErrorMessage (FetchError.genericError s) = s) ∧
    (∀ now e, listPodsOutput now (FetchResult.failure e)
      = ["Error: " ++ handleErrorMessage e]) ∧
    (∀ now e, (listPodsOutput now (FetchResult.failure e)).length = 1) ∧
    (∀ i e rs, run true i (FetchResult.failure e :: rs)
      = Event.fetch :: Event.printError :: Event.clearScreen :: Event.banner
          :: Event.sleep i :: run true i rs) ∧
    (∀ i e, run false i [FetchResult.failure e] = [Event.fetch, Event.printError]) := by
  refine ⟨fun m => rfl, fun s => rfl, fun now e => rfl, fun now e => rfl, ?_, ?_⟩
  · intro i e rs
    simp [run, tickEvents]
  · intro i e
    simp [run, tickEvents]

/-- Claim C8: with watch off the loop performs exactly one tick and stops:
the whole event trace is the first tick, containing exactly one fetch, no
interval sleep and no screen clear. -/
theorem singleShot_run (i : Nat) (r : FetchResult) (rs : List FetchResult) :
    run false i (r :: rs) = tickEvents r ∧
    (run false i (r :: rs)).count Event.fetch = 1 ∧
    (∀ k, Event.sleep k ∉ run false i (r :: rs)) ∧
    Event.clearScreen ∉ run false i (r :: rs) := by
  have h : run false i (r :: rs) = tickEvents r := by simp [run]
  refine ⟨h, ?_, ?_, ?_⟩
  · rw [h]
    cases r <;> rfl
  · rw [h]
    intro k
    cases r <;> simp [tickEvents]
  · rw [h]
    cases r <;> simp [tickEvents]

/-- Claim C9: the rendered pod table is one leading blank line, one header
line, one line per row, a blank line, and a final total line carrying the
row count; with zero rows the headers still print and the output ends with
the line Total pods: 0. -/
theorem renderPods_shape (now : Int) (pods : List Pod) :
    listPodsLines now pods
      = "" :: podHeaderLine
          :: (pods.map (podLine now) ++ ["", "Total pods: " ++ toString pods.length]) ∧
    (listPodsLines now pods).length = pods.length + 4 ∧
    (listPodsLines now pods).getLast? = some ("Total pods: " ++ toString pods.length) ∧
    listPodsLines now [] = ["", podHeaderLine, "", "Total pods: 0"] := by
  refine ⟨rfl, ?_, ?_, rfl⟩
  · simp [listPodsLines]
  · have hsplit : listPodsLines now pods
        = (("" :: podHeaderLine :: pods.map (podLine now)) ++ [""])
            ++ ["Total pods: " ++ toString pods.length] := by
      simp [listPodsLines]
    rw [hsplit, List.getLast?_concat]

/-- Claim C10: the READY numerator counts the container status list while the
denominator is the length of the spec container list, two different lists:
the numerator is bounded by the number of statuses but not by the
denominator, and the pod with no spec containers and one ready status
projects the fraction 1/0. -/
theorem podReady_numerator_denominator :
    (∀ s, getReadyContainers s = s.countP (fun c => c.ready)) ∧
    (∀ s, getReadyContainers s ≤ s.length) ∧
    (∀ p : Pod, podReadyField p
      = toString (getReadyContainers p.status.containerStatuses) ++ "/"
        ++ toString p.spec.containers.length) ∧
    podReadyField overflowPod = "1/0" ∧
    overflowPod.spec.containers.length = 0 ∧
    getReadyContainers overflowPod.status.containerStatuses = 1 := by
  refine ⟨getReadyContainers_eq_countP, ?_, fun p => rfl, by decide, by decide, by decide⟩
  intro s
  rw [getReadyContainers_eq_countP]
  exact List.countP_le_length _

end K8sMonitor
